import Mathlib

/-!
Verification of the natural-language specification of
sagemaker/lineage/lineage_trial_component.py against its code.

The module defines a single class, LineageTrialComponent, a thin
data-binding record over a remote lineage-tracking service.  We embed the
record's field set, the boto member-name lists declared in the class body,
and the three methods implemented in the file (pipeline_execution_arn,
dataset_artifacts, models) as pure Lean functions.  Remote collaborators
(the session's list_tags call and the lineage-query engine) are modelled
as explicit function arguments; each method returns, together with its
result, the list of traversal requests it issued and the record state
after the call, so that call-count and frame properties are expressible.

Collaborators that live outside the source file (the generic Record base
mechanism used by load / update / delete) are modelled from the spec;
their definitions carry a doc comment starting with
"Modelled from the spec:".
-/

namespace SagemakerLineage

/-- Traversal directions of the lineage-query vocabulary (spec section 6
names ASCENDANTS, DESCENDANTS, BOTH). -/
inductive LineageQueryDirectionEnum where
  | ASCENDANTS
  | DESCENDANTS
  | BOTH
  deriving DecidableEq, Repr

/-- Entity kinds of the lineage-query vocabulary; the module only ever
uses ARTIFACT. -/
inductive LineageEntityEnum where
  | ARTIFACT
  | TRIAL_COMPONENT
  | CONTEXT
  | ACTION
  deriving DecidableEq, Repr

/-- Source kinds of the lineage-query vocabulary; the module uses DATASET
and MODEL. -/
inductive LineageSourceEnum where
  | DATASET
  | MODEL
  | ENDPOINT
  deriving DecidableEq, Repr

/-- One tag of a list_tags response: a dict with entries Key and Value. -/
structure Tag where
  Key : String
  Value : String
  deriving DecidableEq, Repr

/-- The field set of LineageTrialComponent (class body lines 67-85 of the
source).  Every attribute defaults to None in Python, hence every field is
an Option.  Remote values whose internal structure never matters to this
module (datetimes, provenance objects, metrics) are abstracted as
strings; the parameter and artifact maps as association lists; the
removal lists as key lists; tags as a list of Tag. -/
structure LineageTrialComponent where
  trial_component_name : Option String
  trial_component_arn : Option String
  display_name : Option String
  source : Option String
  status : Option String
  start_time : Option String
  end_time : Option String
  creation_time : Option String
  created_by : Option String
  last_modified_time : Option String
  last_modified_by : Option String
  parameters : Option (List (String × String))
  input_artifacts : Option (List (String × String))
  output_artifacts : Option (List (String × String))
  metrics : Option String
  parameters_to_remove : Option (List String)
  input_artifacts_to_remove : Option (List String)
  output_artifacts_to_remove : Option (List String)
  tags : Option (List Tag)
  deriving DecidableEq, Repr

/-- Class attribute _boto_create_method (source line 87). -/
def _boto_create_method : String := "create_trial_component"

/-- Class attribute _boto_load_method (source line 88). -/
def _boto_load_method : String := "describe_trial_component"

/-- Class attribute _boto_update_method (source line 89). -/
def _boto_update_method : String := "update_trial_component"

/-- Class attribute _boto_delete_method (source line 90). -/
def _boto_delete_method : String := "delete_trial_component"

/-- Class attribute _boto_update_members (source lines 92-104): the fixed
allow-list of members that participate in the update payload. -/
def _boto_update_members : List String :=
  ["trial_component_name",
   "display_name",
   "status",
   "start_time",
   "end_time",
   "parameters",
   "input_artifacts",
   "output_artifacts",
   "parameters_to_remove",
   "input_artifacts_to_remove",
   "output_artifacts_to_remove"]

/-- Class attribute _boto_delete_members (source line 105): the member
list that participates in the delete payload. -/
def _boto_delete_members : List String := ["trial_component_name"]

/-- The session collaborator as seen by pipeline_execution_arn: its
sagemaker_client.list_tags call, a function from the ResourceArn argument
(the record's trial_component_arn attribute, possibly None) to the Tags
list of the response. -/
structure Session where
  list_tags : Option String → List Tag

/-- The reserved tag key scanned for by pipeline_execution_arn (source
line 137). -/
def pipelineExecutionArnTagKey : String := "sagemaker:pipeline-execution-arn"

/-- The for-loop of pipeline_execution_arn (source lines 136-139): scan
the tag list in order, return the Value of the first tag whose Key equals
the reserved key, and None when the loop falls through. -/
def findPipelineTag : List Tag → Option String
  | [] => none
  | tag :: rest =>
      if tag.Key = pipelineExecutionArnTagKey then some tag.Value
      else findPipelineTag rest

/-- Method pipeline_execution_arn (source lines 127-139): fetch the tags
of this record's trial_component_arn via list_tags, scan them, and return
the first match.  The second component is the record state after the
call; the method body contains no assignment to self, so it is the
receiver unchanged. -/
def pipeline_execution_arn (sess : Session) (self : LineageTrialComponent) :
    Option String × LineageTrialComponent :=
  let tags := sess.list_tags self.trial_component_arn
  (findPipelineTag tags, self)

/-- The query_filter argument of LineageQuery.query, built from an entity
list and a source list (source lines 152-154 and 175-177). -/
structure LineageFilter where
  entities : List LineageEntityEnum
  sources : List LineageSourceEnum
  deriving DecidableEq, Repr

/-- One traversal request issued to the lineage-query engine: the four
arguments of LineageQuery.query as called by this module. -/
structure QueryRequest where
  start_arns : List (Option String)
  query_filter : LineageFilter
  direction : LineageQueryDirectionEnum
  include_edges : Bool
  deriving DecidableEq, Repr

/-- The result of a traversal: the vertices of the query result, over an
abstract vertex type V. -/
structure QueryResult (V : Type) where
  vertices : List V

/-- The lineage-query engine collaborator: the query call, which may fail
with an error of type E, and the vertex-to-object conversion
to_lineage_object supplied by the vertex type, converting an abstract
vertex V into a domain object A. -/
structure LineageQueryEngine (V A E : Type) where
  query : QueryRequest → Except E (QueryResult V)
  to_lineage_object : V → A

/-- The observable outcome of one of the two query methods: the traversal
requests the method issued (in order), the value it returned or the error
it propagated, and the record state after the call. -/
structure QueryCall (A E : Type) where
  requests : List QueryRequest
  result : Except E (List A)
  final_self : LineageTrialComponent

/-- Method dataset_artifacts (source lines 141-162): build a filter with
entities [ARTIFACT] and sources [DATASET], issue one query from
[self.trial_component_arn] in the given direction with include_edges
False, and map every returned vertex through to_lineage_object.  An error
of the query call propagates; the method body contains no assignment to
self. -/
def dataset_artifacts {V A E : Type} (eng : LineageQueryEngine V A E)
    (self : LineageTrialComponent) (direction : LineageQueryDirectionEnum) :
    QueryCall A E :=
  let query_filter : LineageFilter :=
    ⟨[LineageEntityEnum.ARTIFACT], [LineageSourceEnum.DATASET]⟩
  let req : QueryRequest :=
    ⟨[self.trial_component_arn], query_filter, direction, false⟩
  match eng.query req with
  | Except.error e => ⟨[req], Except.error e, self⟩
  | Except.ok query_result =>
      ⟨[req], Except.ok (query_result.vertices.map eng.to_lineage_object), self⟩

/-- Method models (source lines 164-184): identical to dataset_artifacts
except that the filter's sources list is [MODEL]. -/
def models {V A E : Type} (eng : LineageQueryEngine V A E)
    (self : LineageTrialComponent) (direction : LineageQueryDirectionEnum) :
    QueryCall A E :=
  let query_filter : LineageFilter :=
    ⟨[LineageEntityEnum.ARTIFACT], [LineageSourceEnum.MODEL]⟩
  let req : QueryRequest :=
    ⟨[self.trial_component_arn], query_filter, direction, false⟩
  match eng.query req with
  | Except.error e => ⟨[req], Except.error e, self⟩
  | Except.ok query_result =>
      ⟨[req], Except.ok (query_result.vertices.map eng.to_lineage_object), self⟩

/-- Calling dataset_artifacts without an explicit direction argument: the
Python default of the direction parameter is ASCENDANTS (source line
142). -/
def dataset_artifacts_default {V A E : Type} (eng : LineageQueryEngine V A E)
    (self : LineageTrialComponent) : QueryCall A E :=
  dataset_artifacts eng self LineageQueryDirectionEnum.ASCENDANTS

/-- Calling models without an explicit direction argument: the Python
default of the direction parameter is DESCENDANTS (source line 165). -/
def models_default {V A E : Type} (eng : LineageQueryEngine V A E)
    (self : LineageTrialComponent) : QueryCall A E :=
  models eng self LineageQueryDirectionEnum.DESCENDANTS

/-- Modelled from the spec: the common shape the spec ascribes to both
query methods, parameterized by the source filter, against which the two
source methods are compared.  Quoting the spec, models is of identical
shape to dataset_artifacts, but filters for source type model: entity
filter [ARTIFACT], start arns [self.trial_component_arn], the given
direction, include_edges False, vertices mapped through
to_lineage_object. -/
def genericArtifactQuery {V A E : Type} (src : LineageSourceEnum)
    (eng : LineageQueryEngine V A E) (self : LineageTrialComponent)
    (direction : LineageQueryDirectionEnum) : QueryCall A E :=
  let query_filter : LineageFilter :=
    ⟨[LineageEntityEnum.ARTIFACT], [src]⟩
  let req : QueryRequest :=
    ⟨[self.trial_component_arn], query_filter, direction, false⟩
  match eng.query req with
  | Except.error e => ⟨[req], Except.error e, self⟩
  | Except.ok query_result =>
      ⟨[req], Except.ok (query_result.vertices.map eng.to_lineage_object), self⟩

/-- A member value of the record, as it appears in a request payload.
The constructors mirror the types of the record's fields. -/
inductive MemberVal where
  | str : Option String → MemberVal
  | dict : Option (List (String × String)) → MemberVal
  | keys : Option (List String) → MemberVal
  | tagList : Option (List Tag) → MemberVal
  deriving DecidableEq, Repr

/-- Lookup of a record member by its boto member name, as the record base
mechanism does when it assembles request payloads from a member-name
list.  Unlisted names fall through to a None-valued string member, the
Python getattr default. -/
def memberValue (r : LineageTrialComponent) (m : String) : MemberVal :=
  if m = "trial_component_name" then MemberVal.str r.trial_component_name
  else if m = "trial_component_arn" then MemberVal.str r.trial_component_arn
  else if m = "display_name" then MemberVal.str r.display_name
  else if m = "source" then MemberVal.str r.source
  else if m = "status" then MemberVal.str r.status
  else if m = "start_time" then MemberVal.str r.start_time
  else if m = "end_time" then MemberVal.str r.end_time
  else if m = "creation_time" then MemberVal.str r.creation_time
  else if m = "created_by" then MemberVal.str r.created_by
  else if m = "last_modified_time" then MemberVal.str r.last_modified_time
  else if m = "last_modified_by" then MemberVal.str r.last_modified_by
  else if m = "parameters" then MemberVal.dict r.parameters
  else if m = "input_artifacts" then MemberVal.dict r.input_artifacts
  else if m = "output_artifacts" then MemberVal.dict r.output_artifacts
  else if m = "metrics" then MemberVal.str r.metrics
  else if m = "parameters_to_remove" then MemberVal.keys r.parameters_to_remove
  else if m = "input_artifacts_to_remove" then MemberVal.keys r.input_artifacts_to_remove
  else if m = "output_artifacts_to_remove" then MemberVal.keys r.output_artifacts_to_remove
  else if m = "tags" then MemberVal.tagList r.tags
  else MemberVal.str none

/-- Modelled from the spec: the delete payload built by the record base
mechanism (not under src/).  Per the spec, delete transmits only the
identity field: the payload is the projection of the record onto the
members named in _boto_delete_members, regardless of which other fields
are populated. -/
def deletePayload (r : LineageTrialComponent) : List (String × MemberVal) :=
  _boto_delete_members.map (fun m => (m, memberValue r m))

/-- The three removal-list members of the record. -/
def removalMembers : List String :=
  ["parameters_to_remove", "input_artifacts_to_remove",
   "output_artifacts_to_remove"]

/-- Modelled from the spec: the update payload built by the record base
mechanism (not under src/).  Per the spec, update sends exactly the
allow-listed members whose local value changed since the record was
loaded (r0 is the loaded state, r the current state) together with any
populated removal lists; every payload member is drawn from
_boto_update_members. -/
def updatePayload (r0 r : LineageTrialComponent) : List (String × MemberVal) :=
  (_boto_update_members.filter
      (fun m =>
        decide (memberValue r0 m ≠ memberValue r m) ||
        (removalMembers.contains m &&
          decide (memberValue r m ≠ MemberVal.keys none)))).map
    (fun m => (m, memberValue r m))

/-- Error classes surfaced by the remote describe operation (spec section
7). -/
inductive RemoteError where
  | NotFound
  | Unauthorized
  deriving DecidableEq, Repr

/-- Modelled from the spec: the remote store behind the describe
operation.  It maps a trial component name to the fully populated record
the describe-operation would return for it, or None when the store does
not contain the name. -/
structure RemoteStore where
  records : String → Option LineageTrialComponent

/-- A remote store is well formed when every record it returns for a name
carries that name in its trial_component_name field, as the describe
response of the remote service does. -/
def RemoteStore.wellFormed (store : RemoteStore) : Prop :=
  ∀ n r, store.records n = some r → r.trial_component_name = some n

/-- Modelled from the spec: classmethod load (source lines 107-125)
delegates to the base mechanism's _construct with the describe-operation
name (not under src/); per the spec it fetches the remote resource by
name, returns the fully populated record, and fails with a NotFound-class
error when the name does not exist. -/
def load (store : RemoteStore) (trial_component_name : String) :
    Except RemoteError LineageTrialComponent :=
  match store.records trial_component_name with
  | some r => Except.ok r
  | none => Except.error RemoteError.NotFound

/-- Rebinding of the trial_component_name attribute on an instance.  The
class body declares it as a plain class attribute (source line 67) with
no property guard, slots declaration or freeze, so Python permits
reassigning it on any instance; this definition embeds that assignment
path. -/
def set_trial_component_name (r : LineageTrialComponent) (v : Option String) :
    LineageTrialComponent :=
  ⟨v, r.trial_component_arn, r.display_name, r.source, r.status,
   r.start_time, r.end_time, r.creation_time, r.created_by,
   r.last_modified_time, r.last_modified_by, r.parameters,
   r.input_artifacts, r.output_artifacts, r.metrics,
   r.parameters_to_remove, r.input_artifacts_to_remove,
   r.output_artifacts_to_remove, r.tags⟩

/-- A concrete record used by the closed witness theorems. -/
def sampleRecord : LineageTrialComponent :=
  ⟨some "tc-1", some "arn:tc-1", none, none, none, none, none, none, none,
   none, none, none, none, none, none, none, none, none, none⟩

/-- A concrete session whose list_tags response holds a distractor tag
followed by two tags with the reserved pipeline-execution key. -/
def sampleSession : Session :=
  ⟨fun _ =>
    [⟨"team", "ml"⟩,
     ⟨"sagemaker:pipeline-execution-arn", "arn:pipeline-1"⟩,
     ⟨"sagemaker:pipeline-execution-arn", "arn:pipeline-2"⟩]⟩

/-- A concrete session whose list_tags response holds no tag with the
reserved key. -/
def sampleSessionNoKey : Session :=
  ⟨fun _ => [⟨"team", "ml"⟩, ⟨"stage", "dev"⟩]⟩

/-- A concrete engine over Nat vertices that answers every query with two
vertices; to_lineage_object adds ten. -/
def sampleEngine : LineageQueryEngine Nat Nat Unit :=
  ⟨fun _ => Except.ok ⟨[1, 2]⟩, fun v => v + 10⟩

/-- A concrete engine that fails every query with a ValidationError
string, as a throttled or malformed-filter call would. -/
def failingEngine : LineageQueryEngine Nat Nat String :=
  ⟨fun _ => Except.error "ValidationError", fun v => v + 10⟩

/-- A concrete well-formed remote store containing exactly the name
tc-1. -/
def sampleStore : RemoteStore :=
  ⟨fun n =>
    if n = "tc-1" then
      some ⟨some n, some "arn:tc-1", none, none, none, none, none, none,
            none, none, none, none, none, none, none, none, none, none,
            none⟩
    else none⟩

/-- The tag-scanning loop agrees with a first-match lookup on the tag
list. -/
lemma findPipelineTag_eq_find (tags : List Tag) :
    findPipelineTag tags =
      Option.map Tag.Value
        (tags.find? (fun t => t.Key = pipelineExecutionArnTagKey)) := by
  induction tags with
  | nil => rfl
  | cons tag rest ih =>
      by_cases h : tag.Key = pipelineExecutionArnTagKey
      · simp [findPipelineTag, List.find?, h]
      · simp [findPipelineTag, List.find?, h, ih]

/-- Neither branch of dataset_artifacts changes the receiver. -/
lemma dataset_artifacts_final_self {V A E : Type}
    (eng : LineageQueryEngine V A E) (self : LineageTrialComponent)
    (d : LineageQueryDirectionEnum) :
    (dataset_artifacts eng self d).final_self = self := by
  cases heq : eng.query ⟨[self.trial_component_arn],
      ⟨[LineageEntityEnum.ARTIFACT], [LineageSourceEnum.DATASET]⟩, d, false⟩ <;>
    simp [dataset_artifacts, heq]

/-- Neither branch of models changes the receiver. -/
lemma models_final_self {V A E : Type}
    (eng : LineageQueryEngine V A E) (self : LineageTrialComponent)
    (d : LineageQueryDirectionEnum) :
    (models eng self d).final_self = self := by
  cases heq : eng.query ⟨[self.trial_component_arn],
      ⟨[LineageEntityEnum.ARTIFACT], [LineageSourceEnum.MODEL]⟩, d, false⟩ <;>
    simp [models, heq]

/-- Claim C1: pipeline_execution_arn returns the value of the first tag
in the list_tags order whose key is the reserved pipeline-execution key,
so with duplicate keys the first one wins, and it returns an absent
result when no tag has that key, for any tag list of any length. -/
theorem C1_pipeline_execution_arn_first_match (sess : Session)
    (self : LineageTrialComponent) :
    (pipeline_execution_arn sess self).1 =
      Option.map Tag.Value
        ((sess.list_tags self.trial_component_arn).find?
          (fun t => t.Key = pipelineExecutionArnTagKey)) ∧
    ((∀ t ∈ sess.list_tags self.trial_component_arn,
        t.Key ≠ pipelineExecutionArnTagKey) →
      (pipeline_execution_arn sess self).1 = none) := by
  refine ⟨findPipelineTag_eq_find _, fun hnone => ?_⟩
  have : (sess.list_tags self.trial_component_arn).find?
      (fun t => t.Key = pipelineExecutionArnTagKey) = none := by
    rw [List.find?_eq_none]
    intro t ht
    simpa using hnone t ht
  simpa [pipeline_execution_arn, findPipelineTag_eq_find] using this

/-- Witness for C1 at concrete inputs: with a distractor tag followed by
two tags carrying the reserved key the first value wins, and with no
matching tag the result is absent. -/
theorem C1_pipeline_execution_arn_first_match_witness :
    (pipeline_execution_arn sampleSession sampleRecord).1 =
      some "arn:pipeline-1" ∧
    (pipeline_execution_arn sampleSessionNoKey sampleRecord).1 = none := by
  constructor
  · have h := (C1_pipeline_execution_arn_first_match sampleSession
      sampleRecord).1
    rw [h]
    rfl
  · exact (C1_pipeline_execution_arn_first_match sampleSessionNoKey
      sampleRecord).2 (by decide)

/-- Claim C2: for every direction, dataset_artifacts issues exactly one
traversal request, with entity filter [ARTIFACT], source filter
[DATASET], start_arns the singleton of this record's
trial_component_arn, the given direction and include_edges false; on
success it returns the vertices mapped through to_lineage_object in
result order, and in particular the empty list when the result has no
vertices. -/
theorem C2_dataset_artifacts_single_query {V A E : Type}
    (eng : LineageQueryEngine V A E) (self : LineageTrialComponent)
    (d : LineageQueryDirectionEnum) :
    (dataset_artifacts eng self d).requests =
      [⟨[self.trial_component_arn],
        ⟨[LineageEntityEnum.ARTIFACT], [LineageSourceEnum.DATASET]⟩,
        d, false⟩] ∧
    (∀ r : QueryResult V,
      eng.query ⟨[self.trial_component_arn],
          ⟨[LineageEntityEnum.ARTIFACT], [LineageSourceEnum.DATASET]⟩,
          d, false⟩ = Except.ok r →
        (dataset_artifacts eng self d).result =
          Except.ok (r.vertices.map eng.to_lineage_object)) ∧
    (∀ r : QueryResult V,
      eng.query ⟨[self.trial_component_arn],
          ⟨[LineageEntityEnum.ARTIFACT], [LineageSourceEnum.DATASET]⟩,
          d, false⟩ = Except.ok r →
      r.vertices = [] →
        (dataset_artifacts eng self d).result = Except.ok []) := by
  refine ⟨?_, fun r hr => ?_, fun r hr hv => ?_⟩
  · cases heq : eng.query ⟨[self.trial_component_arn],
        ⟨[LineageEntityEnum.ARTIFACT], [LineageSourceEnum.DATASET]⟩,
        d, false⟩ <;>
      simp [dataset_artifacts, heq]
  · simp [dataset_artifacts, hr]
  · simp [dataset_artifacts, hr, hv]

/-- Witness for C2 at concrete inputs: the sample engine answers with
vertices 1 and 2, so the request list is the single expected request and
the result maps both vertices through the conversion. -/
theorem C2_dataset_artifacts_single_query_witness :
    (dataset_artifacts sampleEngine sampleRecord
        LineageQueryDirectionEnum.ASCENDANTS).requests =
      [⟨[some "arn:tc-1"],
        ⟨[LineageEntityEnum.ARTIFACT], [LineageSourceEnum.DATASET]⟩,
        LineageQueryDirectionEnum.ASCENDANTS, false⟩] ∧
    (dataset_artifacts sampleEngine sampleRecord
        LineageQueryDirectionEnum.ASCENDANTS).result = Except.ok [11, 12] :=
  ⟨(C2_dataset_artifacts_single_query sampleEngine sampleRecord
      LineageQueryDirectionEnum.ASCENDANTS).1,
   (C2_dataset_artifacts_single_query sampleEngine sampleRecord
      LineageQueryDirectionEnum.ASCENDANTS).2.1 ⟨[1, 2]⟩ rfl⟩

/-- Claim C3: with no explicit direction, models traverses DESCENDANTS
with source filter [MODEL] and dataset_artifacts traverses ASCENDANTS;
an explicit direction argument to either method overrides the default,
so the issued request carries exactly the passed direction. -/
theorem C3_default_directions {V A E : Type}
    (eng : LineageQueryEngine V A E) (self : LineageTrialComponent) :
    (models_default eng self).requests.map QueryRequest.direction =
      [LineageQueryDirectionEnum.DESCENDANTS] ∧
    (models_default eng self).requests.map
        (fun r => r.query_filter.sources) = [[LineageSourceEnum.MODEL]] ∧
    (dataset_artifacts_default eng self).requests.map
        QueryRequest.direction = [LineageQueryDirectionEnum.ASCENDANTS] ∧
    (∀ d, (models eng self d).requests.map QueryRequest.direction = [d]) ∧
    (∀ d, (dataset_artifacts eng self d).requests.map
        QueryRequest.direction = [d]) := by
  have hm : ∀ d, (models eng self d).requests = [⟨[self.trial_component_arn],
      ⟨[LineageEntityEnum.ARTIFACT], [LineageSourceEnum.MODEL]⟩,
      d, false⟩] := by
    intro d
    cases heq : eng.query ⟨[self.trial_component_arn],
        ⟨[LineageEntityEnum.ARTIFACT], [LineageSourceEnum.MODEL]⟩,
        d, false⟩ <;>
      simp [models, heq]
  have hd : ∀ d, (dataset_artifacts eng self d).requests =
      [⟨[self.trial_component_arn],
        ⟨[LineageEntityEnum.ARTIFACT], [LineageSourceEnum.DATASET]⟩,
        d, false⟩] := by
    intro d
    cases heq : eng.query ⟨[self.trial_component_arn],
        ⟨[LineageEntityEnum.ARTIFACT], [LineageSourceEnum.DATASET]⟩,
        d, false⟩ <;>
      simp [dataset_artifacts, heq]
  refine ⟨?_, ?_, ?_, fun d => ?_, fun d => ?_⟩
  · rw [models_default, hm]; rfl
  · rw [models_default, hm]; rfl
  · rw [dataset_artifacts_default, hd]; rfl
  · rw [hm]; rfl
  · rw [hd]; rfl

/-- Claim C4: dataset_artifacts and models are extensionally equal up to
the source filter: both coincide with the spec's generic query shape,
dataset_artifacts instantiated at source DATASET and models at source
MODEL, for every engine, record and direction. -/
theorem C4_models_dataset_same_shape {V A E : Type}
    (eng : LineageQueryEngine V A E) (self : LineageTrialComponent)
    (d : LineageQueryDirectionEnum) :
    dataset_artifacts eng self d =
      genericArtifactQuery LineageSourceEnum.DATASET eng self d ∧
    models eng self d =
      genericArtifactQuery LineageSourceEnum.MODEL eng self d :=
  ⟨rfl, rfl⟩

/-- Claim C5: any error of the lineage-query engine's query call is
propagated unchanged by dataset_artifacts and by models; neither method
replaces it with an empty or partial result. -/
theorem C5_error_propagation {V A E : Type}
    (eng : LineageQueryEngine V A E) (self : LineageTrialComponent)
    (d : LineageQueryDirectionEnum) (e : E) :
    (eng.query ⟨[self.trial_component_arn],
        ⟨[LineageEntityEnum.ARTIFACT], [LineageSourceEnum.DATASET]⟩,
        d, false⟩ = Except.error e →
      (dataset_artifacts eng self d).result = Except.error e) ∧
    (eng.query ⟨[self.trial_component_arn],
        ⟨[LineageEntityEnum.ARTIFACT], [LineageSourceEnum.MODEL]⟩,
        d, false⟩ = Except.error e →
      (models eng self d).result = Except.error e) := by
  constructor
  · intro hr; simp [dataset_artifacts, hr]
  · intro hr; simp [models, hr]

/-- Witness for C5 at concrete inputs: the failing engine raises a
ValidationError string on every query, and both methods return exactly
that error. -/
theorem C5_error_propagation_witness :
    (dataset_artifacts failingEngine sampleRecord
        LineageQueryDirectionEnum.BOTH).result =
      Except.error "ValidationError" ∧
    (models failingEngine sampleRecord
        LineageQueryDirectionEnum.BOTH).result =
      Except.error "ValidationError" :=
  ⟨(C5_error_propagation failingEngine sampleRecord
      LineageQueryDirectionEnum.BOTH "ValidationError").1 rfl,
   (C5_error_propagation failingEngine sampleRecord
      LineageQueryDirectionEnum.BOTH "ValidationError").2 rfl⟩

/-- A copy of the sample record whose display_name was reassigned
locally, as a caller would before calling update. -/
def sampleRecordUpdated : LineageTrialComponent :=
  ⟨some "tc-1", some "arn:tc-1", some "New display", none, none, none,
   none, none, none, none, none, none, none, none, none, none, none,
   none, none⟩

/-- Claim C6: the delete payload consists of exactly the
trial_component_name member, whatever the other fields of the record
hold; the declared delete member list is exactly that one field. -/
theorem C6_delete_payload_only_name (r : LineageTrialComponent) :
    deletePayload r =
      [("trial_component_name", MemberVal.str r.trial_component_name)] ∧
    (deletePayload r).map Prod.fst = ["trial_component_name"] := by
  constructor <;> rfl

/-- Claim C7: for every loaded state r0 and current state r, every member
of the update payload is drawn from the fixed allow-list
_boto_update_members, and the payload never contains
trial_component_arn. -/
theorem C7_update_payload_allowlist (r0 r : LineageTrialComponent) :
    (∀ m ∈ (updatePayload r0 r).map Prod.fst, m ∈ _boto_update_members) ∧
    "trial_component_arn" ∉ (updatePayload r0 r).map Prod.fst := by
  have hk : (updatePayload r0 r).map Prod.fst =
      _boto_update_members.filter
        (fun m =>
          decide (memberValue r0 m ≠ memberValue r m) ||
          (removalMembers.contains m &&
            decide (memberValue r m ≠ MemberVal.keys none))) := by
    simp only [updatePayload, List.map_map]
    exact List.map_id _
  constructor
  · intro m hm
    rw [hk] at hm
    exact List.mem_of_mem_filter hm
  · intro hmem
    rw [hk] at hmem
    have harn := List.mem_of_mem_filter hmem
    simp [_boto_update_members] at harn

/-- Witness for C7 at concrete inputs: after reassigning only
display_name, the payload keys are exactly [display_name], all drawn
from the allow-list and without trial_component_arn. -/
theorem C7_update_payload_allowlist_witness :
    (∀ m ∈ (updatePayload sampleRecord sampleRecordUpdated).map Prod.fst,
      m ∈ _boto_update_members) ∧
    "trial_component_arn" ∉
      (updatePayload sampleRecord sampleRecordUpdated).map Prod.fst ∧
    (updatePayload sampleRecord sampleRecordUpdated).map Prod.fst =
      ["display_name"] :=
  ⟨(C7_update_payload_allowlist sampleRecord sampleRecordUpdated).1,
   (C7_update_payload_allowlist sampleRecord sampleRecordUpdated).2,
   by decide⟩

/-- Claim C8: against a well-formed remote store, load returns the fully
populated record carrying the requested name whenever the store contains
that name, and fails with the NotFound error when it does not. -/
theorem C8_load_describe_or_not_found (store : RemoteStore)
    (hw : store.wellFormed) (n : String) :
    (∀ r, store.records n = some r →
      load store n = Except.ok r ∧ r.trial_component_name = some n) ∧
    (store.records n = none →
      load store n = Except.error RemoteError.NotFound) := by
  constructor
  · intro r hr
    exact ⟨by simp [load, hr], hw n r hr⟩
  · intro hr
    simp [load, hr]

/-- Witness for C8 at concrete inputs: the sample store contains tc-1 and
load returns that record with the matching name, while a missing name
yields NotFound. -/
theorem C8_load_describe_or_not_found_witness :
    load sampleStore "tc-1" =
      Except.ok ⟨some "tc-1", some "arn:tc-1", none, none, none, none,
        none, none, none, none, none, none, none, none, none, none, none,
        none, none⟩ ∧
    load sampleStore "tc-9" = Except.error RemoteError.NotFound := by
  have hw : sampleStore.wellFormed := by
    intro n r h
    unfold sampleStore at h
    simp only at h
    split at h
    · cases h
      rfl
    · cases h
  refine ⟨((C8_load_describe_or_not_found sampleStore hw "tc-1").1 _ rfl).1,
    (C8_load_describe_or_not_found sampleStore hw "tc-9").2 rfl⟩

/-- Counterexample for C9 as stated: the record type does permit a local
reassignment path that changes trial_component_name — the class declares
it as a plain attribute with no guard, so rebinding it on an instance
yields a different value than before. -/
theorem C9_local_reassignment_counterexample :
    (set_trial_component_name sampleRecord
        (some "tc-other")).trial_component_name = some "tc-other" ∧
    sampleRecord.trial_component_name = some "tc-1" ∧
    decide ((set_trial_component_name sampleRecord
        (some "tc-other")).trial_component_name =
      sampleRecord.trial_component_name) = false := by
  refine ⟨rfl, rfl, by decide⟩

/-- Claim C9 as amended: no method of the module changes
trial_component_name or trial_component_arn — all three instance methods
return the receiver with both identity fields unchanged — though the
type itself does not forbid local reassignment of these attributes. -/
theorem C9_identity_fields_unchanged_by_methods {V A E : Type}
    (eng : LineageQueryEngine V A E) (sess : Session)
    (self : LineageTrialComponent) (d : LineageQueryDirectionEnum) :
    (pipeline_execution_arn sess self).2.trial_component_name =
      self.trial_component_name ∧
    (pipeline_execution_arn sess self).2.trial_component_arn =
      self.trial_component_arn ∧
    (dataset_artifacts eng self d).final_self.trial_component_name =
      self.trial_component_name ∧
    (dataset_artifacts eng self d).final_self.trial_component_arn =
      self.trial_component_arn ∧
    (models eng self d).final_self.trial_component_name =
      self.trial_component_name ∧
    (models eng self d).final_self.trial_component_arn =
      self.trial_component_arn := by
  rw [dataset_artifacts_final_self, models_final_self]
  exact ⟨rfl, rfl, rfl, rfl, rfl, rfl⟩

/-- Claim C10: the three read-only query methods leave every field of the
record unchanged — the record state after each call equals the record
state before it, for every record, session, engine and direction. -/
theorem C10_query_methods_frame {V A E : Type}
    (eng : LineageQueryEngine V A E) (sess : Session)
    (self : LineageTrialComponent) (d : LineageQueryDirectionEnum) :
    (pipeline_execution_arn sess self).2 = self ∧
    (dataset_artifacts eng self d).final_self = self ∧
    (models eng self d).final_self = self :=
  ⟨rfl, dataset_artifacts_final_self eng self d,
   models_final_self eng self d⟩

end SagemakerLineage
